import Mathlib

/-!
Verification of the crypto price widget (src/app.js).

The JavaScript module is a single-page orchestrator around one HTTP fetch,
three module-level rolling arrays feeding a chart, two "last known price"
variables, a repeating auto-refresh timer, and a portfolio calculator.

Shallow embedding conventions:
* JavaScript numbers are modelled as rationals (`ℚ`); concrete rationals in
  witnesses are written with `mkRat` so that the kernel can evaluate them.
* The two last-price variables hold `null` (their page-load value),
  `undefined` (copied from a missing response field on line 105-106) or a
  number; `JsVal` keeps the three cases distinct because the amount-input
  listener compares with strict `=== null`.  A missing field inside the
  parsed response object itself is `none : Option ℚ`.
* The DOM is modelled as the string/boolean fields of `AppState` (mutable
  module state plus the written-to page slots) together with an `Env` record
  holding the values the handler reads from the page at invocation time
  (selected asset, wall-clock time, which elements exist, the portfolio
  amount as already parsed by `parseFloat`, where `none` stands for `NaN`).
* The `try`/`catch` of `fetchAndRenderPrice` is modelled with
  `Except AppState AppState`: `Except.error s` is a thrown exception with the
  mutations performed before the throw still applied to `s`, exactly as in
  JavaScript.
* `setInterval`/`clearInterval` are modelled by `TimerState`: `setInterval`
  hands out a fresh id and adds it to the active set, `clearInterval`
  removes it.  The 30-second tick itself is an external event; a tick simply
  performs a `fetch` operation, which the operation type `Op` already has.
* The Chart.js instance, canvas drawing and HTTP transport are external
  collaborators; only their observable effect on the module state is
  modelled.  The whitespace of HTML template literals is normalised away.
-/

/-- Digits of a natural number padded to two characters, as produced by the
two-digit cases of `String(n).padStart(2, "0")` and of `toFixed(2)`. -/
def pad2 (n : ℕ) : String := if n < 10 then "0" ++ toString n else toString n

/-- Model of `String(n).padStart(2, "0")` from `formatTime` (app.js line 37). -/
def padStart2 (s : String) : String :=
  String.mk (List.replicate (2 - s.length) '0') ++ s

/-- Render `n` hundredths as a decimal string with two digits after the
point: the unsigned part of JavaScript `x.toFixed(2)`. -/
def fixed2Nat (n : ℕ) : String := toString (n / 100) ++ "." ++ pad2 (n % 100)

/-- The number of hundredths in `q`, rounded half up: this is
`⌊100·q + 1/2⌋`, written with integer operations on the reduced
numerator/denominator so that it evaluates by kernel reduction. -/
def roundHalfUpCents (q : ℚ) : ℤ :=
  (200 * q.num + (q.den : ℤ)).fdiv (2 * (q.den : ℤ))

/-- Model of JavaScript `q.toFixed(2)` on the idealised (rational) number
line: the sign is extracted first and the absolute value is rounded half up
to hundredths, following the ECMAScript `toFixed` algorithm.  Note that no
`+` is ever produced for non-negative inputs. -/
def jsToFixed2 (q : ℚ) : String :=
  if q < 0 then "-" ++ fixed2Nat (roundHalfUpCents (-q)).toNat
  else fixed2Nat (roundHalfUpCents q).toNat

/-- Model of `formatTime` (app.js lines 36-40): format as HH:MM. -/
def formatTime (hours minutes : ℕ) : String :=
  padStart2 (toString hours) ++ ":" ++ padStart2 (toString minutes)

/-- The generic failure rendering from the `catch` block
(app.js lines 140-143), whitespace normalised. -/
def couldNotLoadMessage : String :=
  "<p><strong>Could not load price.</strong></p><p class=\"muted\">Please try again in a moment.</p>"

/-- The invalid-amount guidance text of `updatePortfolioValue`
(app.js line 278). -/
def enterAmountMessage : String := "Enter amount to calculate value."

/-- The no-price-yet guidance text of the amount-input listener
(app.js line 327). -/
def loadPriceFirstMessage : String := "Load the price first, then enter an amount."

/-- The loading placeholder written when `showLoading` is set
(app.js line 75). -/
def loadingMessage (assetLabel : String) : String :=
  "<p class=\"muted\">Loading " ++ assetLabel ++ " price…</p>"

/-- A JavaScript value held by the `lastEurPrice`/`lastUsdPrice` module
variables: `null` (their initial value, app.js lines 32-33), `undefined`
(assigned when the addressed response field is missing, lines 105-106), or
a number.  The distinction matters because the amount-input listener tests
`lastEurPrice === null` strictly (line 326): `undefined` does not pass that
test. -/
inductive JsVal where
  | null : JsVal
  | undef : JsVal
  | num (q : ℚ) : JsVal
  deriving DecidableEq

/-- The value a variable receives from a field read such as
`data[assetId].eur` (lines 98-106): the number when the field is present,
`undefined` when it is missing. -/
def JsVal.ofField : Option ℚ → JsVal
  | none => JsVal.undef
  | some q => JsVal.num q

@[simp] lemma JsVal.ofField_some (q : ℚ) : JsVal.ofField (some q) = JsVal.num q := rfl

@[simp] lemma JsVal.ofField_none : JsVal.ofField none = JsVal.undef := rfl

/-- JavaScript `(a * v).toFixed(2)` for a number `a` and a possibly
null/undefined `v` (app.js lines 282-288): `a * undefined` is `NaN` and
`NaN.toFixed(2)` is the string "NaN"; `a * null` coerces `null` to `0`. -/
def jsValMulToFixed2 (a : ℚ) (v : JsVal) : String :=
  match v with
  | JsVal.num q => jsToFixed2 (a * q)
  | JsVal.null => jsToFixed2 0
  | JsVal.undef => "NaN"

/-- One entry of the parsed JSON response, i.e. the object
`data[assetId]` with its four expected numeric fields
(app.js lines 89-102); `none` models a missing field (`undefined`). -/
structure AssetEntry where
  eur : Option ℚ
  usd : Option ℚ
  eur_24h_change : Option ℚ
  usd_24h_change : Option ℚ
  deriving DecidableEq, Repr

/-- Outcome of `await fetch(apiUrl)` and the subsequent
`response.ok` / `response.json()` steps (app.js lines 80-86):
a transport error (the fetch promise rejects), a non-success HTTP status,
a body that fails to parse as JSON, or a parsed JSON object modelled as an
association list from top-level keys to asset entries. -/
inductive FetchOutcome where
  | transportError : FetchOutcome
  | badStatus (status : ℕ) : FetchOutcome
  | jsonError : FetchOutcome
  | parsed (data : List (String × AssetEntry)) : FetchOutcome
  deriving DecidableEq

/-- JavaScript property access `data[assetId]` on the parsed object:
`none` models `undefined` (key absent). -/
def jsonLookup (data : List (String × AssetEntry)) (key : String) : Option AssetEntry :=
  (data.find? (fun p => p.1 == key)).map (fun p => p.2)

/-- The options object of `fetchAndRenderPrice` (app.js lines 53-56). -/
structure FetchOptions where
  disableButton : Bool := true
  showLoading : Bool := true
  deriving DecidableEq

/-- What the handler reads from the page at invocation time: presence and
value of the asset dropdown, presence of the load button, the wall clock,
availability of the chart canvas and of `window.Chart`, presence of the
portfolio input/output elements, and the portfolio amount as parsed by
`parseFloat` (`none` models `NaN`, i.e. a non-numeric input). -/
structure Env where
  assetSelectPresent : Bool
  assetSelectValue : String
  selectedOptionText : String
  loadButtonPresent : Bool
  hours : ℕ
  minutes : ℕ
  chartAvailable : Bool
  portfolioElems : Bool
  portfolioAmount : Option ℚ
  deriving DecidableEq

/-- Model of `assetSelect?.value || "bitcoin"` (app.js line 58): the empty
string is falsy, and an absent element yields `undefined`, also falsy. -/
def resolvedAssetId (env : Env) : String :=
  if env.assetSelectPresent && env.assetSelectValue != "" then env.assetSelectValue
  else "bitcoin"

/-- Model of the asset label resolution (app.js lines 61-65). -/
def resolvedAssetLabel (env : Env) : String :=
  if env.assetSelectPresent then env.selectedOptionText else "Bitcoin (BTC)"

/-- The module-level mutable state of app.js together with the page slots it
writes: `lastEurPrice`/`lastUsdPrice` (lines 32-33), the three rolling
chart arrays (lines 26-28), the result box and portfolio output HTML, and
the load button state. -/
structure AppState where
  lastEurPrice : JsVal
  lastUsdPrice : JsVal
  chartLabels : List String
  chartValuesEur : List ℚ
  chartValuesUsd : List ℚ
  resultBox : String
  portfolioResult : String
  loadButtonDisabled : Bool
  loadButtonText : String
  deriving DecidableEq

/-- The state at page load, before any fetch resolves. -/
def initialAppState : AppState where
  lastEurPrice := JsVal.null
  lastUsdPrice := JsVal.null
  chartLabels := []
  chartValuesEur := []
  chartValuesUsd := []
  resultBox := ""
  portfolioResult := ""
  loadButtonDisabled := false
  loadButtonText := "Load latest price"

/-- `MAX_POINTS` (app.js line 29). -/
def MAX_POINTS : ℕ := 20

/-- The per-array buffer update of `updatePriceChart` (app.js lines 162-169):
`push` the new point, then `shift` once if the length exceeds `MAX_POINTS`. -/
def pushAndTrim {α : Type} (xs : List α) (x : α) : List α :=
  let ys := xs ++ [x]
  if ys.length > MAX_POINTS then ys.tail else ys

/-- Model of `updatePriceChart` (app.js lines 157-243).  The early return
guards on the chart canvas and `window.Chart` (line 159); afterwards each of
the three arrays is pushed to and conditionally shifted.  The Chart.js
object itself (title text, datasets, rendering) is an external collaborator
and is not part of the state. -/
def updatePriceChart (chartAvailable : Bool) (assetLabel timeLabel : String)
    (eurPrice usdPrice : ℚ) (s : AppState) : AppState :=
  if chartAvailable then
    { s with
      chartLabels := pushAndTrim s.chartLabels timeLabel
      chartValuesEur := pushAndTrim s.chartValuesEur eurPrice
      chartValuesUsd := pushAndTrim s.chartValuesUsd usdPrice }
  else s

/-- Model of `updatePortfolioValue` (app.js lines 269-290), returning the new
portfolio output text.  `hasElems` models the guard on the two DOM elements
(line 273, returning with the previous output untouched), `amount` is the
`parseFloat` result (`none` for `NaN`), and the success branch mirrors the
`innerHTML` template with whitespace normalised. -/
def updatePortfolioValue (hasElems : Bool) (amount : Option ℚ)
    (eurPrice usdPrice : JsVal) (prevOutput : String) : String :=
  if hasElems then
    match amount with
    | none => enterAmountMessage
    | some a =>
      if a ≤ 0 then enterAmountMessage
      else
        "Value: <strong>" ++ jsValMulToFixed2 a eurPrice ++ " €</strong><span class=\"muted\"> / "
          ++ jsValMulToFixed2 a usdPrice ++ " $</span>"
  else prevOutput

/-- The success rendering template of the result box
(app.js lines 118-130), whitespace normalised. -/
def renderPriceBlock (assetLabel : String) (eurPrice usdPrice : ℚ)
    (eurChangeFormatted usdChangeFormatted eurChangeClass usdChangeClass formattedTime : String) :
    String :=
  "<p><strong>" ++ assetLabel ++ " price (24h):</strong></p><p>EUR: "
    ++ jsToFixed2 eurPrice ++ " € <span class=\"" ++ eurChangeClass ++ "\">("
    ++ eurChangeFormatted ++ "% in 24h)</span></p><p>USD: "
    ++ jsToFixed2 usdPrice ++ " $ <span class=\"" ++ usdChangeClass ++ "\">("
    ++ usdChangeFormatted ++ "% in 24h)</span></p><p class=\"muted\">Source: CoinGecko (EUR &amp; USD price feed)</p><p class=\"muted\">Last updated at "
    ++ formattedTime ++ "</p>"

/-- The steps of `fetchAndRenderPrice` before the `try` block
(app.js lines 68-76): optionally disable the button and swap its label,
optionally write the loading placeholder. -/
def preSteps (opts : FetchOptions) (env : Env) (s : AppState) : AppState :=
  let s1 :=
    if opts.disableButton && env.loadButtonPresent then
      { s with loadButtonDisabled := true, loadButtonText := "Loading…" }
    else s
  if opts.showLoading then
    { s1 with resultBox := loadingMessage (resolvedAssetLabel env) }
  else s1

/-- The `finally` block (app.js lines 144-150): restore the button if it was
disabled. -/
def finallySteps (opts : FetchOptions) (env : Env) (s : AppState) : AppState :=
  if opts.disableButton && env.loadButtonPresent then
    { s with loadButtonDisabled := false, loadButtonText := "Load latest price" }
  else s

/-- The tail of the success path (app.js lines 108-136), entered once the
four fields have been read and the two last-price variables assigned:
compute the change classes (`>= 0` is positive, line 111-112), render the
price block, update the chart buffers, recompute the portfolio output. -/
def successRender (env : Env) (eurPrice usdPrice eurChange usdChange : ℚ)
    (s : AppState) : AppState :=
  let eurChangeClass := if 0 ≤ eurChange then "change-positive" else "change-negative"
  let usdChangeClass := if 0 ≤ usdChange then "change-positive" else "change-negative"
  let formattedTime := formatTime env.hours env.minutes
  let s2 := { s with
    resultBox := renderPriceBlock (resolvedAssetLabel env) eurPrice usdPrice
      (jsToFixed2 eurChange) (jsToFixed2 usdChange) eurChangeClass usdChangeClass formattedTime }
  let s3 := updatePriceChart env.chartAvailable (resolvedAssetLabel env) formattedTime
    eurPrice usdPrice s2
  { s3 with
    portfolioResult := updatePortfolioValue env.portfolioElems env.portfolioAmount
      (JsVal.num eurPrice) (JsVal.num usdPrice) s3.portfolioResult }

/-- The `try` block of `fetchAndRenderPrice` (app.js lines 78-136).
`Except.error s` models a thrown exception observed by the `catch` block,
with `s` the state as already mutated before the throw:
* transport error, bad status and JSON parse error throw before any
  mutation;
* `data[assetId].eur` (line 98) throws a TypeError when the asset key is
  absent, still before any mutation;
* after lines 105-106 have assigned the last-price variables, a missing
  change field makes `eurChange.toFixed(2)` (line 108) throw, and a missing
  price field makes `eurPrice.toFixed(2)` inside the template (line 121)
  throw — in both cases the last-price assignment has already happened. -/
def tryBlock (env : Env) (out : FetchOutcome) (s : AppState) : Except AppState AppState :=
  match out with
  | FetchOutcome.transportError => Except.error s
  | FetchOutcome.badStatus _ => Except.error s
  | FetchOutcome.jsonError => Except.error s
  | FetchOutcome.parsed data =>
    match jsonLookup data (resolvedAssetId env) with
    | none => Except.error s
    | some entry =>
      let s1 := { s with lastEurPrice := JsVal.ofField entry.eur,
                         lastUsdPrice := JsVal.ofField entry.usd }
      match entry.eur_24h_change, entry.usd_24h_change with
      | some eurChange, some usdChange =>
        match entry.eur, entry.usd with
        | some eurPrice, some usdPrice =>
          Except.ok (successRender env eurPrice usdPrice eurChange usdChange s1)
        | _, _ => Except.error s1
      | _, _ => Except.error s1

/-- Model of `fetchAndRenderPrice` (app.js lines 53-151) given the outcome
of the external fetch: pre-steps, then the `try` block, whose exception (if
any) the `catch` block converts into the generic failure rendering, then the
`finally` block. -/
def fetchAndRenderPrice (opts : FetchOptions) (env : Env) (out : FetchOutcome)
    (s : AppState) : AppState :=
  finallySteps opts env
    (match tryBlock env out (preSteps opts env s) with
     | Except.ok s2 => s2
     | Except.error sErr => { sErr with resultBox := couldNotLoadMessage })

/-- The `input` listener on the portfolio amount field (app.js lines
322-332): the guard on line 326 is the strict test
`lastEurPrice === null || lastUsdPrice === null`, so it fires exactly on
`JsVal.null`; any other value — including the `undefined` left behind by a
failed fetch whose asset entry lacked a price field — falls through to
`updatePortfolioValue` with the remembered values (where an `undefined`
price yields a NaN rendering).  The listener is only installed when the
amount input exists, and the page provides the output element. -/
def portfolioAmountInputListener (env : Env) (s : AppState) : AppState :=
  match s.lastEurPrice, s.lastUsdPrice with
  | JsVal.null, _ => { s with portfolioResult := loadPriceFirstMessage }
  | _, JsVal.null => { s with portfolioResult := loadPriceFirstMessage }
  | pe, pu =>
    { s with portfolioResult :=
        updatePortfolioValue env.portfolioElems env.portfolioAmount pe pu s.portfolioResult }

/-- The interval-timer side of the page: `nextId` is the next id
`setInterval` will hand out, `active` the ids of currently running
intervals, `autoRefreshIntervalId` the module variable of app.js line 22. -/
structure TimerState where
  nextId : ℕ
  active : List ℕ
  autoRefreshIntervalId : Option ℕ
  deriving DecidableEq

/-- Timer state at page load. -/
def initialTimerState : TimerState where
  nextId := 0
  active := []
  autoRefreshIntervalId := none

/-- Model of `stopAutoRefresh` (app.js lines 261-266): clear the interval if
one is recorded, else do nothing. -/
def stopAutoRefresh (t : TimerState) : TimerState :=
  match t.autoRefreshIntervalId with
  | none => t
  | some id =>
    { t with active := t.active.filter (fun j => j ≠ id), autoRefreshIntervalId := none }

/-- Model of `startAutoRefresh` (app.js lines 247-259): first
`stopAutoRefresh`, then `setInterval` returning a fresh id that is recorded
in `autoRefreshIntervalId`. -/
def startAutoRefresh (t : TimerState) : TimerState :=
  let t1 := stopAutoRefresh t
  { t1 with
    active := t1.active ++ [t1.nextId]
    autoRefreshIntervalId := some t1.nextId
    nextId := t1.nextId + 1 }

/-- The events the page can deliver (app.js lines 295-339): a fetch cycle
(manual click, dropdown change, page load, or an auto-refresh tick — they
differ only in options and environment), a keystroke in the portfolio
amount field, and the auto-refresh checkbox toggling on or off. -/
inductive Op where
  | fetch (opts : FetchOptions) (env : Env) (out : FetchOutcome) : Op
  | amountKeystroke (env : Env) : Op
  | toggleAutoRefreshOn : Op
  | toggleAutoRefreshOff : Op

/-- Whole-page state: module variables and page slots plus timers. -/
structure FullState where
  app : AppState
  timers : TimerState

/-- Page state at load time. -/
def initialFullState : FullState where
  app := initialAppState
  timers := initialTimerState

/-- One event dispatch. -/
def step (fs : FullState) (op : Op) : FullState :=
  match op with
  | Op.fetch opts env out => { fs with app := fetchAndRenderPrice opts env out fs.app }
  | Op.amountKeystroke env => { fs with app := portfolioAmountInputListener env fs.app }
  | Op.toggleAutoRefreshOn => { fs with timers := startAutoRefresh fs.timers }
  | Op.toggleAutoRefreshOff => { fs with timers := stopAutoRefresh fs.timers }

/-- The page state after a sequence of events starting at page load. -/
def run (ops : List Op) : FullState := List.foldl step initialFullState ops

/-- Whether a given fetch outcome sends `fetchAndRenderPrice` down the
failure path for the given asset id: a transport error, a bad status, an
unparsable body, an absent asset key, or any of the four expected numeric
fields missing (which makes a `toFixed` call throw). -/
def fetchFailed (assetId : String) (out : FetchOutcome) : Bool :=
  match out with
  | FetchOutcome.parsed data =>
    match jsonLookup data assetId with
    | some e => e.eur.isNone || e.usd.isNone || e.eur_24h_change.isNone || e.usd_24h_change.isNone
    | none => true
  | _ => true

/-- The asset entry the handler addresses in the response, if the outcome
carries a parsed object containing the requested key. -/
def entryOfOutcome (assetId : String) (out : FetchOutcome) : Option AssetEntry :=
  match out with
  | FetchOutcome.parsed data => jsonLookup data assetId
  | _ => none

/-- The 21 samples used to exercise FIFO eviction, folded through
`updatePriceChart` exactly as 21 successful fetches would. -/
def chartAppendAll (ts : List (String × ℚ × ℚ)) : AppState :=
  ts.foldl (fun s t => updatePriceChart true "" t.1 t.2.1 t.2.2 s) initialAppState

/-! ### Projection lemmas -/

@[simp] lemma preSteps_lastEurPrice (opts : FetchOptions) (env : Env) (s : AppState) :
    (preSteps opts env s).lastEurPrice = s.lastEurPrice := by
  simp only [preSteps]; split <;> split <;> rfl

@[simp] lemma preSteps_lastUsdPrice (opts : FetchOptions) (env : Env) (s : AppState) :
    (preSteps opts env s).lastUsdPrice = s.lastUsdPrice := by
  simp only [preSteps]; split <;> split <;> rfl

@[simp] lemma preSteps_chartLabels (opts : FetchOptions) (env : Env) (s : AppState) :
    (preSteps opts env s).chartLabels = s.chartLabels := by
  simp only [preSteps]; split <;> split <;> rfl

@[simp] lemma preSteps_chartValuesEur (opts : FetchOptions) (env : Env) (s : AppState) :
    (preSteps opts env s).chartValuesEur = s.chartValuesEur := by
  simp only [preSteps]; split <;> split <;> rfl

@[simp] lemma preSteps_chartValuesUsd (opts : FetchOptions) (env : Env) (s : AppState) :
    (preSteps opts env s).chartValuesUsd = s.chartValuesUsd := by
  simp only [preSteps]; split <;> split <;> rfl

@[simp] lemma preSteps_portfolioResult (opts : FetchOptions) (env : Env) (s : AppState) :
    (preSteps opts env s).portfolioResult = s.portfolioResult := by
  simp only [preSteps]; split <;> split <;> rfl

@[simp] lemma finallySteps_lastEurPrice (opts : FetchOptions) (env : Env) (s : AppState) :
    (finallySteps opts env s).lastEurPrice = s.lastEurPrice := by
  simp only [finallySteps]; split <;> rfl

@[simp] lemma finallySteps_lastUsdPrice (opts : FetchOptions) (env : Env) (s : AppState) :
    (finallySteps opts env s).lastUsdPrice = s.lastUsdPrice := by
  simp only [finallySteps]; split <;> rfl

@[simp] lemma finallySteps_chartLabels (opts : FetchOptions) (env : Env) (s : AppState) :
    (finallySteps opts env s).chartLabels = s.chartLabels := by
  simp only [finallySteps]; split <;> rfl

@[simp] lemma finallySteps_chartValuesEur (opts : FetchOptions) (env : Env) (s : AppState) :
    (finallySteps opts env s).chartValuesEur = s.chartValuesEur := by
  simp only [finallySteps]; split <;> rfl

@[simp] lemma finallySteps_chartValuesUsd (opts : FetchOptions) (env : Env) (s : AppState) :
    (finallySteps opts env s).chartValuesUsd = s.chartValuesUsd := by
  simp only [finallySteps]; split <;> rfl

@[simp] lemma finallySteps_portfolioResult (opts : FetchOptions) (env : Env) (s : AppState) :
    (finallySteps opts env s).portfolioResult = s.portfolioResult := by
  simp only [finallySteps]; split <;> rfl

@[simp] lemma finallySteps_resultBox (opts : FetchOptions) (env : Env) (s : AppState) :
    (finallySteps opts env s).resultBox = s.resultBox := by
  simp only [finallySteps]; split <;> rfl

@[simp] lemma updatePriceChart_lastEurPrice (b : Bool) (al tl : String) (p u : ℚ) (s : AppState) :
    (updatePriceChart b al tl p u s).lastEurPrice = s.lastEurPrice := by
  simp only [updatePriceChart]; split <;> rfl

@[simp] lemma updatePriceChart_lastUsdPrice (b : Bool) (al tl : String) (p u : ℚ) (s : AppState) :
    (updatePriceChart b al tl p u s).lastUsdPrice = s.lastUsdPrice := by
  simp only [updatePriceChart]; split <;> rfl

@[simp] lemma updatePriceChart_resultBox (b : Bool) (al tl : String) (p u : ℚ) (s : AppState) :
    (updatePriceChart b al tl p u s).resultBox = s.resultBox := by
  simp only [updatePriceChart]; split <;> rfl

@[simp] lemma updatePriceChart_portfolioResult (b : Bool) (al tl : String) (p u : ℚ) (s : AppState) :
    (updatePriceChart b al tl p u s).portfolioResult = s.portfolioResult := by
  simp only [updatePriceChart]; split <;> rfl

@[simp] lemma updatePriceChart_chartLabels (b : Bool) (al tl : String) (p u : ℚ) (s : AppState) :
    (updatePriceChart b al tl p u s).chartLabels =
      if b then pushAndTrim s.chartLabels tl else s.chartLabels := by
  simp only [updatePriceChart]; split <;> simp_all

@[simp] lemma updatePriceChart_chartValuesEur (b : Bool) (al tl : String) (p u : ℚ) (s : AppState) :
    (updatePriceChart b al tl p u s).chartValuesEur =
      if b then pushAndTrim s.chartValuesEur p else s.chartValuesEur := by
  simp only [updatePriceChart]; split <;> simp_all

@[simp] lemma updatePriceChart_chartValuesUsd (b : Bool) (al tl : String) (p u : ℚ) (s : AppState) :
    (updatePriceChart b al tl p u s).chartValuesUsd =
      if b then pushAndTrim s.chartValuesUsd u else s.chartValuesUsd := by
  simp only [updatePriceChart]; split <;> simp_all

@[simp] lemma successRender_lastEurPrice (env : Env) (p u ec uc : ℚ) (s : AppState) :
    (successRender env p u ec uc s).lastEurPrice = s.lastEurPrice := by
  simp [successRender]

@[simp] lemma successRender_lastUsdPrice (env : Env) (p u ec uc : ℚ) (s : AppState) :
    (successRender env p u ec uc s).lastUsdPrice = s.lastUsdPrice := by
  simp [successRender]

@[simp] lemma successRender_resultBox (env : Env) (p u ec uc : ℚ) (s : AppState) :
    (successRender env p u ec uc s).resultBox =
      renderPriceBlock (resolvedAssetLabel env) p u (jsToFixed2 ec) (jsToFixed2 uc)
        (if 0 ≤ ec then "change-positive" else "change-negative")
        (if 0 ≤ uc then "change-positive" else "change-negative")
        (formatTime env.hours env.minutes) := by
  simp [successRender]

@[simp] lemma successRender_portfolioResult (env : Env) (p u ec uc : ℚ) (s : AppState) :
    (successRender env p u ec uc s).portfolioResult =
      updatePortfolioValue env.portfolioElems env.portfolioAmount
        (JsVal.num p) (JsVal.num u) s.portfolioResult := by
  simp [successRender]

@[simp] lemma successRender_chartLabels (env : Env) (p u ec uc : ℚ) (s : AppState) :
    (successRender env p u ec uc s).chartLabels =
      if env.chartAvailable then pushAndTrim s.chartLabels (formatTime env.hours env.minutes)
      else s.chartLabels := by
  simp [successRender]

@[simp] lemma successRender_chartValuesEur (env : Env) (p u ec uc : ℚ) (s : AppState) :
    (successRender env p u ec uc s).chartValuesEur =
      if env.chartAvailable then pushAndTrim s.chartValuesEur p else s.chartValuesEur := by
  simp [successRender]

@[simp] lemma successRender_chartValuesUsd (env : Env) (p u ec uc : ℚ) (s : AppState) :
    (successRender env p u ec uc s).chartValuesUsd =
      if env.chartAvailable then pushAndTrim s.chartValuesUsd u else s.chartValuesUsd := by
  simp [successRender]

@[simp] lemma portfolioAmountInputListener_lastEurPrice (env : Env) (s : AppState) :
    (portfolioAmountInputListener env s).lastEurPrice = s.lastEurPrice := by
  simp only [portfolioAmountInputListener]; split <;> rfl

@[simp] lemma portfolioAmountInputListener_lastUsdPrice (env : Env) (s : AppState) :
    (portfolioAmountInputListener env s).lastUsdPrice = s.lastUsdPrice := by
  simp only [portfolioAmountInputListener]; split <;> rfl

@[simp] lemma portfolioAmountInputListener_chartLabels (env : Env) (s : AppState) :
    (portfolioAmountInputListener env s).chartLabels = s.chartLabels := by
  simp only [portfolioAmountInputListener]; split <;> rfl

@[simp] lemma portfolioAmountInputListener_chartValuesEur (env : Env) (s : AppState) :
    (portfolioAmountInputListener env s).chartValuesEur = s.chartValuesEur := by
  simp only [portfolioAmountInputListener]; split <;> rfl

@[simp] lemma portfolioAmountInputListener_chartValuesUsd (env : Env) (s : AppState) :
    (portfolioAmountInputListener env s).chartValuesUsd = s.chartValuesUsd := by
  simp only [portfolioAmountInputListener]; split <;> rfl

/-! ### Characterisation of the try block -/

/-- When the try block throws, nothing but the two last-price variables can
have been mutated, and those are mutated exactly when the asset entry was
found before the throw. -/
lemma tryBlock_error_proj (env : Env) (out : FetchOutcome) (s r : AppState)
    (h : tryBlock env out s = Except.error r) :
    r.chartLabels = s.chartLabels ∧ r.chartValuesEur = s.chartValuesEur ∧
    r.chartValuesUsd = s.chartValuesUsd ∧ r.portfolioResult = s.portfolioResult ∧
    r.resultBox = s.resultBox ∧
    r.lastEurPrice = (match entryOfOutcome (resolvedAssetId env) out with
      | none => s.lastEurPrice
      | some e => JsVal.ofField e.eur) ∧
    r.lastUsdPrice = (match entryOfOutcome (resolvedAssetId env) out with
      | none => s.lastUsdPrice
      | some e => JsVal.ofField e.usd) := by
  unfold tryBlock at h
  cases out with
  | transportError =>
    simp only [Except.error.injEq] at h; subst h; simp [entryOfOutcome]
  | badStatus st =>
    simp only [Except.error.injEq] at h; subst h; simp [entryOfOutcome]
  | jsonError =>
    simp only [Except.error.injEq] at h; subst h; simp [entryOfOutcome]
  | parsed data =>
    simp only [entryOfOutcome]
    dsimp only at h
    cases hl : jsonLookup data (resolvedAssetId env) with
    | none =>
      rw [hl] at h
      simp only [Except.error.injEq] at h; subst h; simp_all
    | some entry =>
      rw [hl] at h
      dsimp only at h
      cases hec : entry.eur_24h_change with
      | none =>
        rw [hec] at h
        simp only [Except.error.injEq] at h; subst h; simp_all
      | some ec =>
        rw [hec] at h
        cases huc : entry.usd_24h_change with
        | none =>
          rw [huc] at h
          simp only [Except.error.injEq] at h; subst h; simp_all
        | some uc =>
          rw [huc] at h
          dsimp only at h
          cases hp : entry.eur with
          | none =>
            rw [hp] at h
            simp only [Except.error.injEq] at h; subst h; simp_all
          | some p =>
            rw [hp] at h
            cases hu : entry.usd with
            | none =>
              rw [hu] at h
              simp only [Except.error.injEq] at h; subst h; simp_all
            | some u =>
              rw [hu] at h
              simp at h

/-- When the try block returns normally, the outcome was a parsed object
containing the requested asset with all four fields, and the result is the
success rendering applied after the last-price assignment. -/
lemma tryBlock_ok_proj (env : Env) (out : FetchOutcome) (s r : AppState)
    (h : tryBlock env out s = Except.ok r) :
    ∃ data entry p u ec uc, out = FetchOutcome.parsed data ∧
      jsonLookup data (resolvedAssetId env) = some entry ∧
      entry.eur = some p ∧ entry.usd = some u ∧
      entry.eur_24h_change = some ec ∧ entry.usd_24h_change = some uc ∧
      r = successRender env p u ec uc
        { s with lastEurPrice := JsVal.num p, lastUsdPrice := JsVal.num u } := by
  unfold tryBlock at h
  cases out with
  | transportError => simp at h
  | badStatus st => simp at h
  | jsonError => simp at h
  | parsed data =>
    dsimp only at h
    cases hl : jsonLookup data (resolvedAssetId env) with
    | none => rw [hl] at h; simp at h
    | some entry =>
      rw [hl] at h
      dsimp only at h
      cases hec : entry.eur_24h_change with
      | none => rw [hec] at h; simp at h
      | some ec =>
        rw [hec] at h
        cases huc : entry.usd_24h_change with
        | none => rw [huc] at h; simp at h
        | some uc =>
          rw [huc] at h
          dsimp only at h
          cases hp : entry.eur with
          | none => rw [hp] at h; simp at h
          | some p =>
            rw [hp] at h
            cases hu : entry.usd with
            | none => rw [hu] at h; simp at h
            | some u =>
              rw [hu] at h
              simp only [Except.ok.injEq] at h
              exact ⟨data, entry, p, u, ec, uc, rfl, hl, hp, hu, hec, huc, h.symm⟩

/-- Direct equation for the fully successful case. -/
lemma tryBlock_success (env : Env) (data : List (String × AssetEntry))
    (entry : AssetEntry) (p u ec uc : ℚ) (s : AppState)
    (hl : jsonLookup data (resolvedAssetId env) = some entry)
    (hp : entry.eur = some p) (hu : entry.usd = some u)
    (hec : entry.eur_24h_change = some ec) (huc : entry.usd_24h_change = some uc) :
    tryBlock env (FetchOutcome.parsed data) s = Except.ok (successRender env p u ec uc
      { s with lastEurPrice := JsVal.num p, lastUsdPrice := JsVal.num u }) := by
  unfold tryBlock
  dsimp only
  rw [hl]
  dsimp only
  rw [hec, huc]
  dsimp only
  rw [hp, hu]
  rfl

/-- When the outcome fails, the try block throws. -/
lemma tryBlock_error_of_failed (env : Env) (out : FetchOutcome) (s : AppState)
    (h : fetchFailed (resolvedAssetId env) out = true) :
    ∃ r, tryBlock env out s = Except.error r := by
  unfold tryBlock
  cases out with
  | transportError => exact ⟨s, rfl⟩
  | badStatus st => exact ⟨s, rfl⟩
  | jsonError => exact ⟨s, rfl⟩
  | parsed data =>
    unfold fetchFailed at h
    dsimp only at h ⊢
    cases hl : jsonLookup data (resolvedAssetId env) with
    | none => exact ⟨s, rfl⟩
    | some entry =>
      rw [hl] at h
      dsimp only at h ⊢
      cases hec : entry.eur_24h_change with
      | none => exact ⟨_, rfl⟩
      | some ec =>
        cases huc : entry.usd_24h_change with
        | none => exact ⟨_, rfl⟩
        | some uc =>
          cases hp : entry.eur with
          | none => exact ⟨_, rfl⟩
          | some p =>
            cases hu : entry.usd with
            | none => exact ⟨_, rfl⟩
            | some u =>
              rw [hp, hu, hec, huc] at h
              simp at h

/-- Unfolding of a failing `fetchAndRenderPrice` invocation through its
`catch` and `finally` blocks. -/
lemma fetchAndRenderPrice_failed (opts : FetchOptions) (env : Env) (out : FetchOutcome)
    (s : AppState) (h : fetchFailed (resolvedAssetId env) out = true) :
    ∃ r, tryBlock env out (preSteps opts env s) = Except.error r ∧
      fetchAndRenderPrice opts env out s =
        finallySteps opts env { r with resultBox := couldNotLoadMessage } := by
  obtain ⟨r, hr⟩ := tryBlock_error_of_failed env out (preSteps opts env s) h
  refine ⟨r, hr, ?_⟩
  unfold fetchAndRenderPrice
  rw [hr]

/-- Unfolding of a fully successful `fetchAndRenderPrice` invocation. -/
lemma fetchAndRenderPrice_success (opts : FetchOptions) (env : Env)
    (data : List (String × AssetEntry)) (entry : AssetEntry) (p u ec uc : ℚ) (s : AppState)
    (hl : jsonLookup data (resolvedAssetId env) = some entry)
    (hp : entry.eur = some p) (hu : entry.usd = some u)
    (hec : entry.eur_24h_change = some ec) (huc : entry.usd_24h_change = some uc) :
    fetchAndRenderPrice opts env (FetchOutcome.parsed data) s =
      finallySteps opts env (successRender env p u ec uc
        { preSteps opts env s with lastEurPrice := JsVal.num p,
                                   lastUsdPrice := JsVal.num u }) := by
  unfold fetchAndRenderPrice
  rw [tryBlock_success env data entry p u ec uc _ hl hp hu hec huc]

/-! ### The rolling buffer -/

/-- Length evolution of one rolling array under push-then-shift. -/
lemma pushAndTrim_length {α : Type} (xs : List α) (x : α) :
    (pushAndTrim xs x).length =
      if xs.length < MAX_POINTS then xs.length + 1 else xs.length := by
  unfold pushAndTrim
  dsimp only
  split
  · rename_i h
    rw [List.length_append] at h
    simp only [List.length_singleton] at h
    rw [List.length_tail, List.length_append]
    simp only [List.length_singleton]
    rw [if_neg (by omega)]
    omega
  · rename_i h
    rw [List.length_append] at h ⊢
    simp only [List.length_singleton] at h ⊢
    rw [if_pos (by omega)]

/-- Push-then-shift appends at the tail and drops the head exactly when the
array was full: the surviving prefix keeps its order. -/
lemma pushAndTrim_eq {α : Type} (xs : List α) (x : α) :
    pushAndTrim xs x = xs.drop (if MAX_POINTS ≤ xs.length then 1 else 0) ++ [x] := by
  simp only [pushAndTrim, MAX_POINTS, List.length_append, List.length_singleton]
  split_ifs with h1 h2 <;> try omega
  · cases xs with
    | nil => simp at h2
    | cons y ys => simp
  · simp

/-- The three rolling arrays stay within capacity and in step with each
other. -/
def bufferInv (s : AppState) : Prop :=
  s.chartLabels.length ≤ MAX_POINTS ∧
  s.chartValuesEur.length = s.chartLabels.length ∧
  s.chartValuesUsd.length = s.chartLabels.length

lemma bufferInv_updatePriceChart (b : Bool) (al tl : String) (p u : ℚ) (s : AppState)
    (h : bufferInv s) : bufferInv (updatePriceChart b al tl p u s) := by
  obtain ⟨h1, h2, h3⟩ := h
  refine ⟨?_, ?_, ?_⟩ <;>
    simp only [updatePriceChart_chartLabels, updatePriceChart_chartValuesEur,
      updatePriceChart_chartValuesUsd] <;>
    split_ifs <;>
    first
    | omega
    | (simp only [pushAndTrim_length]; split_ifs <;> omega)

lemma bufferInv_preSteps (opts : FetchOptions) (env : Env) (s : AppState)
    (h : bufferInv s) : bufferInv (preSteps opts env s) := by
  simpa [bufferInv] using h

lemma bufferInv_finallySteps (opts : FetchOptions) (env : Env) (s : AppState)
    (h : bufferInv s) : bufferInv (finallySteps opts env s) := by
  simpa [bufferInv] using h

lemma bufferInv_successRender (env : Env) (p u ec uc : ℚ) (s : AppState)
    (h : bufferInv s) : bufferInv (successRender env p u ec uc s) := by
  obtain ⟨h1, h2, h3⟩ := h
  refine ⟨?_, ?_, ?_⟩ <;>
    simp only [successRender_chartLabels, successRender_chartValuesEur,
      successRender_chartValuesUsd] <;>
    split_ifs <;>
    first
    | omega
    | (simp only [pushAndTrim_length]; split_ifs <;> omega)

/-- `fetchAndRenderPrice` preserves the buffer invariant whatever the
outcome. -/
lemma bufferInv_fetchAndRenderPrice (opts : FetchOptions) (env : Env) (out : FetchOutcome)
    (s : AppState) (h : bufferInv s) : bufferInv (fetchAndRenderPrice opts env out s) := by
  have hpre := bufferInv_preSteps opts env s h
  unfold fetchAndRenderPrice
  cases hT : tryBlock env out (preSteps opts env s) with
  | error r =>
    obtain ⟨hL, hE, hU, -⟩ := tryBlock_error_proj env out _ r hT
    refine bufferInv_finallySteps _ _ _ ?_
    obtain ⟨p1, p2, p3⟩ := hpre
    exact ⟨by simpa [hL] using p1, by simpa [hL, hE] using p2, by simpa [hL, hU] using p3⟩
  | ok r =>
    obtain ⟨data, entry, p, u, ec, uc, hout, hl, hp, hu, hec, huc, hr⟩ :=
      tryBlock_ok_proj env out _ r hT
    subst hr
    refine bufferInv_finallySteps _ _ _ ?_
    refine bufferInv_successRender _ _ _ _ _ _ ?_
    obtain ⟨p1, p2, p3⟩ := hpre
    exact ⟨p1, p2, p3⟩

lemma bufferInv_portfolioAmountInputListener (env : Env) (s : AppState)
    (h : bufferInv s) : bufferInv (portfolioAmountInputListener env s) := by
  simpa [bufferInv] using h

/-! ### The timer -/

/-- There is at most one interval, its id is recorded in
`autoRefreshIntervalId`, and recorded ids are in the already-issued range. -/
def timerInv (t : TimerState) : Prop :=
  match t.autoRefreshIntervalId with
  | none => t.active = []
  | some id => t.active = [id] ∧ id < t.nextId

lemma stopAutoRefresh_id (t : TimerState) :
    (stopAutoRefresh t).autoRefreshIntervalId = none := by
  unfold stopAutoRefresh
  split
  · assumption
  · rfl

lemma stopAutoRefresh_nextId (t : TimerState) :
    (stopAutoRefresh t).nextId = t.nextId := by
  unfold stopAutoRefresh
  split <;> rfl

lemma timerInv_stopAutoRefresh (t : TimerState) (h : timerInv t) :
    timerInv (stopAutoRefresh t) := by
  unfold timerInv stopAutoRefresh at *
  cases ht : t.autoRefreshIntervalId with
  | none => rw [ht] at h; simpa [ht] using h
  | some id =>
    rw [ht] at h
    obtain ⟨ha, -⟩ := h
    simp [ha]

lemma timerInv_startAutoRefresh (t : TimerState) (h : timerInv t) :
    timerInv (startAutoRefresh t) := by
  have hs := timerInv_stopAutoRefresh t h
  unfold timerInv at hs
  rw [stopAutoRefresh_id] at hs
  unfold startAutoRefresh timerInv
  simp [hs]

/-! ### The reachable-state invariant -/

/-- Invariant of the whole page state. -/
def stateInv (fs : FullState) : Prop := bufferInv fs.app ∧ timerInv fs.timers

lemma stateInv_initial : stateInv initialFullState := by
  refine ⟨⟨?_, ?_, ?_⟩, ?_⟩ <;> simp [initialFullState, initialAppState, initialTimerState,
    timerInv, MAX_POINTS]

lemma stateInv_step (fs : FullState) (op : Op) (h : stateInv fs) : stateInv (step fs op) := by
  obtain ⟨hb, ht⟩ := h
  cases op with
  | fetch opts env out => exact ⟨bufferInv_fetchAndRenderPrice opts env out fs.app hb, ht⟩
  | amountKeystroke env => exact ⟨bufferInv_portfolioAmountInputListener env fs.app hb, ht⟩
  | toggleAutoRefreshOn => exact ⟨hb, timerInv_startAutoRefresh fs.timers ht⟩
  | toggleAutoRefreshOff => exact ⟨hb, timerInv_stopAutoRefresh fs.timers ht⟩

lemma stateInv_foldl (ops : List Op) (fs : FullState) (h : stateInv fs) :
    stateInv (List.foldl step fs ops) := by
  induction ops generalizing fs with
  | nil => simpa using h
  | cons op rest ih => exact ih (step fs op) (stateInv_step fs op h)

/-- Every reachable page state satisfies the invariant. -/
lemma stateInv_run (ops : List Op) : stateInv (run ops) :=
  stateInv_foldl ops initialFullState stateInv_initial

/-! ### FIFO characterisation of the rolling buffer -/

lemma chartAppendAll_append (ts : List (String × ℚ × ℚ)) (t : String × ℚ × ℚ) :
    chartAppendAll (ts ++ [t]) =
      updatePriceChart true "" t.1 t.2.1 t.2.2 (chartAppendAll ts) := by
  unfold chartAppendAll
  rw [List.foldl_append]
  rfl

/-- Appending one sample to a full sliding window slides the window by
one. -/
lemma dropWindow_push {α : Type} (l : List α) (x : α) :
    pushAndTrim (l.drop (l.length - MAX_POINTS)) x
      = (l ++ [x]).drop (l.length + 1 - MAX_POINTS) := by
  have hM : MAX_POINTS = 20 := rfl
  rw [pushAndTrim_eq, List.length_drop]
  rw [List.drop_append_of_le_length (by omega)]
  rw [List.drop_drop]
  exact congrArg (fun k => l.drop k ++ [x]) (by split_ifs <;> omega)

/-- After any number of appends the rolling arrays hold exactly the last
`MAX_POINTS` samples, in insertion order. -/
lemma chartAppendAll_buffers (ts : List (String × ℚ × ℚ)) :
    (chartAppendAll ts).chartLabels =
        (ts.map Prod.fst).drop (ts.length - MAX_POINTS) ∧
      (chartAppendAll ts).chartValuesEur =
        (ts.map (fun t => t.2.1)).drop (ts.length - MAX_POINTS) ∧
      (chartAppendAll ts).chartValuesUsd =
        (ts.map (fun t => t.2.2)).drop (ts.length - MAX_POINTS) := by
  induction ts using List.reverseRecOn with
  | nil => simp [chartAppendAll, initialAppState]
  | append_singleton ts t ih =>
    obtain ⟨ih1, ih2, ih3⟩ := ih
    rw [chartAppendAll_append]
    refine ⟨?_, ?_, ?_⟩
    · simp only [updatePriceChart_chartLabels, if_true, ih1, List.map_append,
        List.map_cons, List.map_nil, List.length_append, List.length_singleton]
      rw [show ts.length = (ts.map Prod.fst).length by rw [List.length_map]]
      exact dropWindow_push _ _
    · simp only [updatePriceChart_chartValuesEur, if_true, ih2, List.map_append,
        List.map_cons, List.map_nil, List.length_append, List.length_singleton]
      rw [show ts.length = (ts.map (fun t => t.2.1)).length by rw [List.length_map]]
      exact dropWindow_push _ _
    · simp only [updatePriceChart_chartValuesUsd, if_true, ih3, List.map_append,
        List.map_cons, List.map_nil, List.length_append, List.length_singleton]
      rw [show ts.length = (ts.map (fun t => t.2.2)).length by rw [List.length_map]]
      exact dropWindow_push _ _

/-! ### Concrete fixtures for witnesses and counterexamples -/

/-- A page environment with the default asset selected, all elements
present, the chart loaded, the clock at 09:05 and an empty amount field. -/
def sampleEnv : Env where
  assetSelectPresent := true
  assetSelectValue := "bitcoin"
  selectedOptionText := "Bitcoin (BTC)"
  loadButtonPresent := true
  hours := 9
  minutes := 5
  chartAvailable := true
  portfolioElems := true
  portfolioAmount := none

/-- A response whose asset entry carries prices but no change fields. -/
def partialData : List (String × AssetEntry) :=
  [("bitcoin",
    { eur := some (mkRat 100 1), usd := some (mkRat 200 1),
      eur_24h_change := none, usd_24h_change := none })]

/-- The asset entry of the end-to-end scenario: 61234.56 EUR /
65432.10 USD, +1.25% / -0.80%. -/
def e2eEntry : AssetEntry where
  eur := some (mkRat 6123456 100)
  usd := some (mkRat 6543210 100)
  eur_24h_change := some (mkRat 125 100)
  usd_24h_change := some (mkRat (-80) 100)

/-- The end-to-end response of the specification. -/
def e2eData : List (String × AssetEntry) := [("bitcoin", e2eEntry)]

/-- Twenty-one distinct samples, to exercise the first eviction. -/
def fifoSamples : List (String × ℚ × ℚ) :=
  (List.range 21).map (fun i => (toString i, (mkRat (i + 1) 1 : ℚ), (mkRat (i + 2) 1 : ℚ)))

/-! ### Claims -/

/-- Claim C10: after any sequence of operations, the three rolling-buffer
arrays chartLabels, chartValuesEur and chartValuesUsd always have equal
lengths, so the chart is always fed parallel label and value sequences of
the same length. -/
theorem c10_parallel_buffer_lengths (ops : List Op) :
    (run ops).app.chartValuesEur.length = (run ops).app.chartLabels.length ∧
    (run ops).app.chartValuesUsd.length = (run ops).app.chartLabels.length :=
  ⟨(stateInv_run ops).1.2.1, (stateInv_run ops).1.2.2⟩

/-- Claim C9: a keystroke-triggered portfolio recalculation before any
successful fetch — lastEurPrice or lastUsdPrice still null, the page-load
value tested strictly by line 326 — writes the load-the-price-first
message, regardless of the amount in the field.  (The strict `=== null`
test means this covers exactly the null value: a price left `undefined` by
a malformed-payload failure does not take this branch.) -/
theorem c9_load_price_first (env : Env) (s : AppState)
    (h : s.lastEurPrice = JsVal.null ∨ s.lastUsdPrice = JsVal.null) :
    (portfolioAmountInputListener env s).portfolioResult = loadPriceFirstMessage := by
  unfold portfolioAmountInputListener
  rcases he : s.lastEurPrice with _ | _ | e <;>
    rcases hu : s.lastUsdPrice with _ | _ | u <;>
      try rfl
  all_goals
    rcases h with h | h <;> simp only [he, hu] at h <;> exact JsVal.noConfusion h

/-- Fidelity check for the strict null test of line 326: a failed fetch
whose asset entry has change fields but no prices leaves the last-price
variables `undefined` (not `null`), so a later keystroke with a valid
amount does not produce the load-first prompt — it renders a NaN value,
exactly as the program does.  This state is outside C9's hypothesis, which
the claim itself phrases as "still null". -/
lemma listener_nan_after_undefined_price :
    (fetchAndRenderPrice { disableButton := true, showLoading := true } sampleEnv
        (FetchOutcome.parsed [("bitcoin",
          { eur := none, usd := none,
            eur_24h_change := some (mkRat 1 1), usd_24h_change := some (mkRat 1 1) })])
        initialAppState).lastEurPrice = JsVal.undef ∧
    (portfolioAmountInputListener { sampleEnv with portfolioAmount := some (mkRat 2 1) }
        (fetchAndRenderPrice { disableButton := true, showLoading := true } sampleEnv
          (FetchOutcome.parsed [("bitcoin",
            { eur := none, usd := none,
              eur_24h_change := some (mkRat 1 1), usd_24h_change := some (mkRat 1 1) })])
          initialAppState)).portfolioResult
      = "Value: <strong>NaN €</strong><span class=\"muted\"> / NaN $</span>" := by
  refine ⟨?_, ?_⟩ <;> decide

/-- Witness for C9 at the page-load state with a valid amount typed. -/
theorem c9_witness :
    (initialAppState.lastEurPrice = JsVal.null ∨
      initialAppState.lastUsdPrice = JsVal.null) ∧
    (portfolioAmountInputListener
        { sampleEnv with portfolioAmount := some (mkRat 3 2) }
        initialAppState).portfolioResult = loadPriceFirstMessage :=
  ⟨Or.inl rfl,
    c9_load_price_first { sampleEnv with portfolioAmount := some (mkRat 3 2) }
      initialAppState (Or.inl rfl)⟩

/-- Helper: an invalid amount short-circuits `updatePortfolioValue`. -/
lemma updatePortfolioValue_invalid (amount : Option ℚ) (e u : JsVal) (prev : String)
    (hbad : ∀ a, amount = some a → a ≤ 0) :
    updatePortfolioValue true amount e u prev = enterAmountMessage := by
  unfold updatePortfolioValue
  rcases ha : amount with _ | a
  · rfl
  · have := hbad a ha
    simp [this]

/-- Claim C8: a portfolio recalculation whose entered amount is 0, negative
or not parseable produces the enter-a-valid-amount guidance (distinct from
the load-a-price-first message) and never a computed value, even when both
prices are known. -/
theorem c8_invalid_amount_message (amount : Option ℚ) (eurPrice usdPrice : JsVal)
    (prev : String) (env : Env) (s : AppState) (e u : ℚ)
    (hbad : ∀ a, amount = some a → a ≤ 0) :
    updatePortfolioValue true amount eurPrice usdPrice prev = enterAmountMessage ∧
    enterAmountMessage ≠ loadPriceFirstMessage ∧
    (s.lastEurPrice = JsVal.num e → s.lastUsdPrice = JsVal.num u →
      env.portfolioElems = true → env.portfolioAmount = amount →
      (portfolioAmountInputListener env s).portfolioResult = enterAmountMessage) := by
  refine ⟨updatePortfolioValue_invalid amount eurPrice usdPrice prev hbad, by decide, ?_⟩
  intro he hu hel ham
  unfold portfolioAmountInputListener
  rw [he, hu]
  dsimp only
  rw [hel, ham]
  exact updatePortfolioValue_invalid amount (JsVal.num e) (JsVal.num u)
    s.portfolioResult hbad

/-- Witness for C8: amount 0 with both prices known. -/
theorem c8_witness :
    (∀ a, (some (0 : ℚ)) = some a → a ≤ 0) ∧
    updatePortfolioValue true (some (0 : ℚ)) (JsVal.num (mkRat 100 1))
        (JsVal.num (mkRat 200 1)) "" = enterAmountMessage ∧
    enterAmountMessage ≠ loadPriceFirstMessage := by
  have hbad : ∀ a, (some (0 : ℚ)) = some a → a ≤ 0 := by
    intro a ha
    injection ha with h
    rw [← h]
  refine ⟨hbad, ?_, ?_⟩
  · exact (c8_invalid_amount_message (some (0 : ℚ)) (JsVal.num (mkRat 100 1))
      (JsVal.num (mkRat 200 1)) "" sampleEnv initialAppState 0 0 hbad).1
  · exact (c8_invalid_amount_message (some (0 : ℚ)) (JsVal.num (mkRat 100 1))
      (JsVal.num (mkRat 200 1)) "" sampleEnv initialAppState 0 0 hbad).2.1

/-- Claim C4: a malformed payload (absent asset key or missing numeric
field) is caught at the orchestrator boundary and converted into the same
generic could-not-load-price rendering that a transport error produces; the
orchestrator function is total, so no exception propagates out of it. -/
theorem c4_malformed_payload_caught (opts : FetchOptions) (env : Env)
    (data : List (String × AssetEntry)) (s : AppState)
    (hmal : fetchFailed (resolvedAssetId env) (FetchOutcome.parsed data) = true) :
    (fetchAndRenderPrice opts env (FetchOutcome.parsed data) s).resultBox
        = couldNotLoadMessage ∧
    (fetchAndRenderPrice opts env FetchOutcome.transportError s).resultBox
        = couldNotLoadMessage := by
  constructor
  · obtain ⟨r, -, heq⟩ := fetchAndRenderPrice_failed opts env _ s hmal
    rw [heq]; simp
  · obtain ⟨r, -, heq⟩ :=
      fetchAndRenderPrice_failed opts env FetchOutcome.transportError s rfl
    rw [heq]; simp

/-- Witness for C4: response parses but lacks the requested key. -/
theorem c4_witness :
    fetchFailed (resolvedAssetId sampleEnv)
        (FetchOutcome.parsed [("ethereum",
          { eur := some (mkRat 1 1), usd := some (mkRat 1 1),
            eur_24h_change := some (mkRat 1 1), usd_24h_change := some (mkRat 1 1) })])
      = true ∧
    (fetchAndRenderPrice { disableButton := true, showLoading := true } sampleEnv
        (FetchOutcome.parsed [("ethereum",
          { eur := some (mkRat 1 1), usd := some (mkRat 1 1),
            eur_24h_change := some (mkRat 1 1), usd_24h_change := some (mkRat 1 1) })])
        initialAppState).resultBox = couldNotLoadMessage := by
  refine ⟨by decide, ?_⟩
  exact (c4_malformed_payload_caught { disableButton := true, showLoading := true }
    sampleEnv _ initialAppState (by decide)).1

/-- Claim C3: a successful fetch of the selected asset whose response
parses to an object containing numeric eur/usd fields for that asset leaves
lastEurPrice and lastUsdPrice equal to exactly those two fields, with no
transformation.  (The change fields play no role: once the asset entry is
addressed, lines 105-106 of app.js always copy its eur/usd fields.) -/
theorem c3_success_sets_last_prices (opts : FetchOptions) (env : Env)
    (data : List (String × AssetEntry)) (entry : AssetEntry) (p u : ℚ) (s : AppState)
    (hl : jsonLookup data (resolvedAssetId env) = some entry)
    (hp : entry.eur = some p) (hu : entry.usd = some u) :
    (fetchAndRenderPrice opts env (FetchOutcome.parsed data) s).lastEurPrice
        = JsVal.num p ∧
    (fetchAndRenderPrice opts env (FetchOutcome.parsed data) s).lastUsdPrice
        = JsVal.num u := by
  cases hT : tryBlock env (FetchOutcome.parsed data) (preSteps opts env s) with
  | error r =>
    obtain ⟨-, -, -, -, -, hEur, hUsd⟩ :=
      tryBlock_error_proj env (FetchOutcome.parsed data) _ r hT
    unfold fetchAndRenderPrice
    rw [hT]
    dsimp only
    constructor <;> simp [hEur, hUsd, entryOfOutcome, hl, hp, hu]
  | ok r =>
    obtain ⟨data', entry', p', u', ec', uc', hout, hl', hp', hu', hec', huc', hr⟩ :=
      tryBlock_ok_proj env (FetchOutcome.parsed data) _ r hT
    injection hout with hdd
    subst hdd
    rw [hl] at hl'
    injection hl' with hee
    subst hee
    rw [hp] at hp'
    injection hp' with hpp
    subst hpp
    rw [hu] at hu'
    injection hu' with huu
    subst huu
    subst hr
    unfold fetchAndRenderPrice
    rw [hT]
    dsimp only
    constructor <;> simp

/-- Witness for C3: the end-to-end response sets the two prices. -/
theorem c3_witness :
    jsonLookup e2eData (resolvedAssetId sampleEnv) = some e2eEntry ∧
    (fetchAndRenderPrice { disableButton := false, showLoading := false } sampleEnv
        (FetchOutcome.parsed e2eData) initialAppState).lastEurPrice
      = JsVal.num (mkRat 6123456 100) ∧
    (fetchAndRenderPrice { disableButton := false, showLoading := false } sampleEnv
        (FetchOutcome.parsed e2eData) initialAppState).lastUsdPrice
      = JsVal.num (mkRat 6543210 100) := by
  refine ⟨by decide, ?_, ?_⟩
  · exact (c3_success_sets_last_prices { disableButton := false, showLoading := false }
      sampleEnv e2eData e2eEntry (mkRat 6123456 100) (mkRat 6543210 100) initialAppState
      (by decide) rfl rfl).1
  · exact (c3_success_sets_last_prices { disableButton := false, showLoading := false }
      sampleEnv e2eData e2eEntry (mkRat 6123456 100) (mkRat 6543210 100) initialAppState
      (by decide) rfl rfl).2

/-- Claim C6: a fully successful fetch (chart available) appends exactly one
entry to each rolling array — one time label and one value per currency —
at the tail; the surviving existing entries keep their order and values,
only the head being dropped when the array was already full. -/
theorem c6_single_append_per_success (opts : FetchOptions) (env : Env)
    (data : List (String × AssetEntry)) (entry : AssetEntry) (p u ec uc : ℚ)
    (s : AppState)
    (hch : env.chartAvailable = true)
    (hl : jsonLookup data (resolvedAssetId env) = some entry)
    (hp : entry.eur = some p) (hu : entry.usd = some u)
    (hec : entry.eur_24h_change = some ec) (huc : entry.usd_24h_change = some uc)
    (hlen1 : s.chartValuesEur.length = s.chartLabels.length)
    (hlen2 : s.chartValuesUsd.length = s.chartLabels.length) :
    (fetchAndRenderPrice opts env (FetchOutcome.parsed data) s).chartLabels
        = s.chartLabels.drop (if MAX_POINTS ≤ s.chartLabels.length then 1 else 0)
          ++ [formatTime env.hours env.minutes] ∧
    (fetchAndRenderPrice opts env (FetchOutcome.parsed data) s).chartValuesEur
        = s.chartValuesEur.drop (if MAX_POINTS ≤ s.chartLabels.length then 1 else 0)
          ++ [p] ∧
    (fetchAndRenderPrice opts env (FetchOutcome.parsed data) s).chartValuesUsd
        = s.chartValuesUsd.drop (if MAX_POINTS ≤ s.chartLabels.length then 1 else 0)
          ++ [u] := by
  rw [fetchAndRenderPrice_success opts env data entry p u ec uc s hl hp hu hec huc]
  refine ⟨?_, ?_, ?_⟩ <;>
    simp [hch, pushAndTrim_eq, hlen1, hlen2]

/-- Witness for C6: the first successful fetch appends the 09:05 sample to
the empty buffers. -/
theorem c6_witness :
    sampleEnv.chartAvailable = true ∧
    (fetchAndRenderPrice { disableButton := false, showLoading := false } sampleEnv
        (FetchOutcome.parsed e2eData) initialAppState).chartLabels
      = initialAppState.chartLabels.drop
          (if MAX_POINTS ≤ initialAppState.chartLabels.length then 1 else 0)
        ++ [formatTime sampleEnv.hours sampleEnv.minutes] := by
  refine ⟨rfl, ?_⟩
  exact (c6_single_append_per_success { disableButton := false, showLoading := false }
    sampleEnv e2eData e2eEntry (mkRat 6123456 100) (mkRat 6543210 100) (mkRat 125 100)
    (mkRat (-80) 100) initialAppState rfl (by decide) rfl rfl rfl rfl rfl rfl).1

/-- Claim C2: every rolling-buffer array has length at most 20 after any
sequence of operations (in particular after any sequence of successful
fetches), and appending 21 samples to the empty buffers through
`updatePriceChart` leaves exactly the last 20 in order: the first sample is
gone and the second is at the head (strict FIFO, append-only at the tail,
no reordering). -/
theorem c2_buffer_capacity_fifo :
    (∀ ops : List Op,
      (run ops).app.chartLabels.length ≤ MAX_POINTS ∧
      (run ops).app.chartValuesEur.length ≤ MAX_POINTS ∧
      (run ops).app.chartValuesUsd.length ≤ MAX_POINTS) ∧
    (∀ ts : List (String × ℚ × ℚ), ts.length = 21 →
      (chartAppendAll ts).chartLabels = (ts.map Prod.fst).drop 1 ∧
      (chartAppendAll ts).chartValuesEur = (ts.map (fun t => t.2.1)).drop 1 ∧
      (chartAppendAll ts).chartValuesUsd = (ts.map (fun t => t.2.2)).drop 1) := by
  constructor
  · intro ops
    obtain ⟨⟨h1, h2, h3⟩, -⟩ := stateInv_run ops
    exact ⟨h1, by omega, by omega⟩
  · intro ts hlen
    obtain ⟨h1, h2, h3⟩ := chartAppendAll_buffers ts
    rw [hlen] at h1 h2 h3
    rw [show 21 - MAX_POINTS = 1 from rfl] at h1 h2 h3
    exact ⟨h1, h2, h3⟩

/-- Witness for C2: 21 concrete samples; after the 21st append the label
buffer is exactly samples 2..21. -/
theorem c2_witness :
    fifoSamples.length = 21 ∧
    (chartAppendAll fifoSamples).chartLabels = (fifoSamples.map Prod.fst).drop 1 ∧
    (run [Op.fetch { disableButton := true, showLoading := true } sampleEnv
        (FetchOutcome.parsed e2eData)]).app.chartLabels.length ≤ MAX_POINTS := by
  refine ⟨by decide, ?_, ?_⟩
  · exact (c2_buffer_capacity_fifo.2 fifoSamples (by decide)).1
  · exact (c2_buffer_capacity_fifo.1 [Op.fetch { disableButton := true, showLoading := true }
      sampleEnv (FetchOutcome.parsed e2eData)]).1

/-- Claim C7: after any sequence of events at most one auto-refresh
interval is live; stopping when none is recorded is a no-op; and starting
while one is live hands the work to a fresh interval id, the recorded id
changing to it — so enabling twice never leaves two concurrent timers. -/
theorem c7_single_timer :
    (∀ ops : List Op, (run ops).timers.active.length ≤ 1) ∧
    (∀ t : TimerState, t.autoRefreshIntervalId = none → stopAutoRefresh t = t) ∧
    (∀ ops : List Op, ∀ id, (run ops).timers.autoRefreshIntervalId = some id →
      (startAutoRefresh (run ops).timers).active = [(run ops).timers.nextId] ∧
      id ≠ (run ops).timers.nextId ∧
      (startAutoRefresh (run ops).timers).autoRefreshIntervalId
        = some (run ops).timers.nextId) := by
  refine ⟨?_, ?_, ?_⟩
  · intro ops
    have ht := (stateInv_run ops).2
    unfold timerInv at ht
    cases h : (run ops).timers.autoRefreshIntervalId with
    | none => rw [h] at ht; simp [ht]
    | some id => rw [h] at ht; simp [ht.1]
  · intro t h
    unfold stopAutoRefresh
    rw [h]
  · intro ops id h
    have ht := (stateInv_run ops).2
    unfold timerInv at ht
    rw [h] at ht
    obtain ⟨ha, hlt⟩ := ht
    have h0 : (stopAutoRefresh (run ops).timers).active = [] := by
      unfold stopAutoRefresh
      rw [h]
      simp [ha]
    refine ⟨?_, by omega, ?_⟩
    · unfold startAutoRefresh
      simp [h0, stopAutoRefresh_nextId]
    · unfold startAutoRefresh
      simp [stopAutoRefresh_nextId]

/-- Witness for C7: after enabling once, the recorded interval is 0; a
second enable cancels it and records the fresh id 1. -/
theorem c7_witness :
    (run [Op.toggleAutoRefreshOn]).timers.autoRefreshIntervalId = some 0 ∧
    (startAutoRefresh (run [Op.toggleAutoRefreshOn]).timers).active
      = [(run [Op.toggleAutoRefreshOn]).timers.nextId] ∧
    (0 : ℕ) ≠ (run [Op.toggleAutoRefreshOn]).timers.nextId ∧
    ({ nextId := 5, active := [], autoRefreshIntervalId := none } : TimerState).autoRefreshIntervalId = none ∧
    stopAutoRefresh { nextId := 5, active := [], autoRefreshIntervalId := none }
      = { nextId := 5, active := [], autoRefreshIntervalId := none } := by
  refine ⟨rfl, ?_, ?_, rfl, ?_⟩
  · exact (c7_single_timer.2.2 [Op.toggleAutoRefreshOn] 0 rfl).1
  · exact (c7_single_timer.2.2 [Op.toggleAutoRefreshOn] 0 rfl).2.1
  · exact c7_single_timer.2.1 { nextId := 5, active := [], autoRefreshIntervalId := none } rfl

/-- Counterexample to claim C1 as stated: a response whose asset entry has
prices but no change fields ends the invocation in the failure path (the
generic failure message is rendered), yet lastEurPrice and lastUsdPrice
have been overwritten — lines 105-106 of app.js run before the
`toFixed` call on the missing change field throws.  The rolling arrays are
unchanged. -/
theorem c1_counterexample :
    (fetchAndRenderPrice { disableButton := true, showLoading := true } sampleEnv
        (FetchOutcome.parsed partialData) initialAppState).resultBox
      = couldNotLoadMessage ∧
    initialAppState.lastEurPrice = JsVal.null ∧
    (fetchAndRenderPrice { disableButton := true, showLoading := true } sampleEnv
        (FetchOutcome.parsed partialData) initialAppState).lastEurPrice
      = JsVal.num (mkRat 100 1) ∧
    (fetchAndRenderPrice { disableButton := true, showLoading := true } sampleEnv
        (FetchOutcome.parsed partialData) initialAppState).lastUsdPrice
      = JsVal.num (mkRat 200 1) ∧
    (fetchAndRenderPrice { disableButton := true, showLoading := true } sampleEnv
        (FetchOutcome.parsed partialData) initialAppState).chartLabels
      = initialAppState.chartLabels := by
  refine ⟨?_, rfl, ?_, ?_, ?_⟩ <;> decide

/-- Claim C1, amended: on every failing invocation the generic failure
message is rendered and the three rolling arrays are unchanged; the last
known prices are also unchanged whenever the failure strikes before the
asset entry is addressed (transport error, bad status, unparsable body,
absent asset key), but when the entry was found and a field needed later is
missing, the last known prices have already been overwritten with the
entry's eur/usd fields. -/
theorem c1_failure_preserves_state_amended (opts : FetchOptions) (env : Env)
    (out : FetchOutcome) (s : AppState)
    (h : fetchFailed (resolvedAssetId env) out = true) :
    (fetchAndRenderPrice opts env out s).resultBox = couldNotLoadMessage ∧
    (fetchAndRenderPrice opts env out s).chartLabels = s.chartLabels ∧
    (fetchAndRenderPrice opts env out s).chartValuesEur = s.chartValuesEur ∧
    (fetchAndRenderPrice opts env out s).chartValuesUsd = s.chartValuesUsd ∧
    (entryOfOutcome (resolvedAssetId env) out = none →
      (fetchAndRenderPrice opts env out s).lastEurPrice = s.lastEurPrice ∧
      (fetchAndRenderPrice opts env out s).lastUsdPrice = s.lastUsdPrice) ∧
    (∀ e, entryOfOutcome (resolvedAssetId env) out = some e →
      (fetchAndRenderPrice opts env out s).lastEurPrice = JsVal.ofField e.eur ∧
      (fetchAndRenderPrice opts env out s).lastUsdPrice = JsVal.ofField e.usd) := by
  obtain ⟨r, hr, heq⟩ := fetchAndRenderPrice_failed opts env out s h
  obtain ⟨hL, hE, hU, -, -, hEur, hUsd⟩ := tryBlock_error_proj env out _ r hr
  rw [heq]
  refine ⟨by simp, by simp [hL], by simp [hE], by simp [hU], ?_, ?_⟩
  · intro hnone
    rw [hnone] at hEur hUsd
    constructor <;> simp [hEur, hUsd]
  · intro e he
    rw [he] at hEur hUsd
    constructor <;> simp [hEur, hUsd]

/-- Witness for the amended C1 at the counterexample input: the failure
message is rendered, the buffers survive, and the prices take the entry's
fields. -/
theorem c1_witness :
    fetchFailed (resolvedAssetId sampleEnv) (FetchOutcome.parsed partialData) = true ∧
    (fetchAndRenderPrice { disableButton := false, showLoading := true } sampleEnv
        (FetchOutcome.parsed partialData) initialAppState).resultBox
      = couldNotLoadMessage ∧
    (fetchAndRenderPrice { disableButton := false, showLoading := true } sampleEnv
        (FetchOutcome.parsed partialData) initialAppState).chartLabels
      = initialAppState.chartLabels := by
  refine ⟨by decide, ?_, ?_⟩
  · exact (c1_failure_preserves_state_amended { disableButton := false, showLoading := true }
      sampleEnv (FetchOutcome.parsed partialData) initialAppState (by decide)).1
  · exact (c1_failure_preserves_state_amended { disableButton := false, showLoading := true }
      sampleEnv (FetchOutcome.parsed partialData) initialAppState (by decide)).2.1

set_option maxRecDepth 8192 in
/-- Counterexample to claim C5 as stated: in the end-to-end scenario the
EUR change is +1.25, yet the rendered block shows "(1.25% in 24h)" — the
full rendering contains no plus character at all, so the positive percent
change does not carry an explicit sign (only negative values do, via the
minus of `toFixed`). -/
theorem c5_counterexample :
    (fetchAndRenderPrice { disableButton := false, showLoading := false } sampleEnv
        (FetchOutcome.parsed e2eData) initialAppState).resultBox
      = "<p><strong>Bitcoin (BTC) price (24h):</strong></p><p>EUR: 61234.56 € <span class=\"change-positive\">(1.25% in 24h)</span></p><p>USD: 65432.10 $ <span class=\"change-negative\">(-0.80% in 24h)</span></p><p class=\"muted\">Source: CoinGecko (EUR &amp; USD price feed)</p><p class=\"muted\">Last updated at 09:05</p>" ∧
    (0 : ℚ) < mkRat 125 100 ∧
    jsToFixed2 (mkRat 125 100) = "1.25" ∧
    '+' ∉ (fetchAndRenderPrice { disableButton := false, showLoading := false } sampleEnv
        (FetchOutcome.parsed e2eData) initialAppState).resultBox.toList := by
  refine ⟨?_, ?_, ?_, ?_⟩ <;> decide

/-- Claim C5, amended: every fully successful fetch renders the price block
with both prices formatted to two decimals and both percent changes
formatted to two decimals by `toFixed`, which prepends a minus sign exactly
for negative values and no sign otherwise (no explicit plus); the style
attribute is change-positive when the change is ≥ 0 (zero counts as
positive) and change-negative when it is < 0. -/
theorem c5_render_format_amended (opts : FetchOptions) (env : Env)
    (data : List (String × AssetEntry)) (entry : AssetEntry) (p u ec uc : ℚ)
    (s : AppState)
    (hl : jsonLookup data (resolvedAssetId env) = some entry)
    (hp : entry.eur = some p) (hu : entry.usd = some u)
    (hec : entry.eur_24h_change = some ec) (huc : entry.usd_24h_change = some uc) :
    (fetchAndRenderPrice opts env (FetchOutcome.parsed data) s).resultBox
        = renderPriceBlock (resolvedAssetLabel env) p u (jsToFixed2 ec) (jsToFixed2 uc)
            (if 0 ≤ ec then "change-positive" else "change-negative")
            (if 0 ≤ uc then "change-positive" else "change-negative")
            (formatTime env.hours env.minutes) ∧
    (0 ≤ ec → jsToFixed2 ec = fixed2Nat (roundHalfUpCents ec).toNat) ∧
    (ec < 0 → jsToFixed2 ec = "-" ++ fixed2Nat (roundHalfUpCents (-ec)).toNat) ∧
    (0 ≤ uc → jsToFixed2 uc = fixed2Nat (roundHalfUpCents uc).toNat) ∧
    (uc < 0 → jsToFixed2 uc = "-" ++ fixed2Nat (roundHalfUpCents (-uc)).toNat) := by
  refine ⟨?_, ?_, ?_, ?_, ?_⟩
  · rw [fetchAndRenderPrice_success opts env data entry p u ec uc s hl hp hu hec huc]
    simp
  · intro hpos
    unfold jsToFixed2
    rw [if_neg (not_lt.mpr hpos)]
  · intro hneg
    unfold jsToFixed2
    rw [if_pos hneg]
  · intro hpos
    unfold jsToFixed2
    rw [if_neg (not_lt.mpr hpos)]
  · intro hneg
    unfold jsToFixed2
    rw [if_pos hneg]

/-- Witness for the amended C5 at the end-to-end input. -/
theorem c5_witness :
    jsonLookup e2eData (resolvedAssetId sampleEnv) = some e2eEntry ∧
    (fetchAndRenderPrice { disableButton := false, showLoading := false } sampleEnv
        (FetchOutcome.parsed e2eData) initialAppState).resultBox
      = renderPriceBlock (resolvedAssetLabel sampleEnv) (mkRat 6123456 100)
          (mkRat 6543210 100) (jsToFixed2 (mkRat 125 100)) (jsToFixed2 (mkRat (-80) 100))
          (if 0 ≤ (mkRat 125 100 : ℚ) then "change-positive" else "change-negative")
          (if 0 ≤ (mkRat (-80) 100 : ℚ) then "change-positive" else "change-negative")
          (formatTime sampleEnv.hours sampleEnv.minutes) := by
  refine ⟨by decide, ?_⟩
  exact (c5_render_format_amended { disableButton := false, showLoading := false }
    sampleEnv e2eData e2eEntry (mkRat 6123456 100) (mkRat 6543210 100)
    (mkRat 125 100) (mkRat (-80) 100) initialAppState (by decide) rfl rfl rfl rfl).1
